import Mathlib

/-!
Verification of `src/linkedin_bookmarker.py`.

Python strings are modelled as `List Char`; the Python string operations used by
the source (`split`, `strip`, `lower`, `startswith`, `in`, `join`) are given
executable structural definitions below so that every theorem can be evaluated
on concrete inputs by the kernel.
-/

/-- Python `str` values, as their character sequences. -/
abbrev Str := List Char

/-- The characters of a Lean string literal (used to write `Str` constants). -/
def chars (s : String) : Str := s.data

/-- Python `haystack.startswith(needle)` on character lists. -/
def leadsWith : Str → Str → Bool
  | [], _ => true
  | _ :: _, [] => false
  | a :: s, b :: t => a == b && leadsWith s t

/-- Python `needle in haystack` (substring containment). -/
def containsSub (needle : Str) : Str → Bool
  | [] => leadsWith needle []
  | c :: t => leadsWith needle (c :: t) || containsSub needle t

/-- Python `s.lower()`. -/
def pylower (cs : Str) : Str := cs.map Char.toLower

/-- Whitespace recognized by Python `str.strip()` (the forms appearing here). -/
def isPySpace (c : Char) : Bool :=
  c == ' ' || c == '\t' || c == '\n' || c == '\r'

/-- Drop leading whitespace. -/
def dropSpace : Str → Str
  | [] => []
  | c :: t => if isPySpace c then dropSpace t else c :: t

/-- Python `s.strip()`: remove whitespace from both ends. -/
def pystrip (cs : Str) : Str :=
  ((dropSpace cs).reverse |> dropSpace).reverse

/-- Worker for `pysplit`; the fuel argument makes the recursion structural and
is always at least the input length plus one, so it never runs out. -/
def splitGo (sep : Str) : Nat → Str → Str → List Str
  | 0, cs, acc => [acc.reverse ++ cs]
  | _ + 1, [], acc => [acc.reverse]
  | fuel + 1, c :: t, acc =>
    if leadsWith sep (c :: t) then
      acc.reverse :: splitGo sep fuel (List.drop (sep.length - 1) t) []
    else
      splitGo sep fuel t (c :: acc)

/-- Python `cs.split(sep)` for a nonempty separator: left-to-right,
non-overlapping, keeping empty fields (so the result is never empty). -/
def pysplit (cs sep : Str) : List Str := splitGo sep (cs.length + 1) cs []

-- --- CONFIGURATION (src/linkedin_bookmarker.py lines 28-41) ---

/-- `DEFAULT_DELAY = 10`. -/
def DEFAULT_DELAY : Nat := 10

/-- `MAX_RETRIES = 3`. -/
def MAX_RETRIES : Nat := 3

/-- `MAX_URLS = 500`. -/
def MAX_URLS : Nat := 500

/-- `MAX_CONSECUTIVE_FAILURES = 5`. -/
def MAX_CONSECUTIVE_FAILURES : Nat := 5

/-- `PROXY_LIST` from the source configuration block. -/
def PROXY_LIST : List String :=
  ["123.123.123.123:8000", "111.222.111.222:8080"]

-- --- RESPONSE CLASSIFICATION (make_request, lines 284-298) ---

/-- The outcome make_request assigns to a received HTTP response, following the
check sequence at lines 285-298: status 999, then the "security check" body
marker, then the "captcha" body marker, then any non-200 status, else success. -/
inductive Outcome where
  | rateLimited
  | blocked
  | captchaRequired
  | httpError (status : Nat)
  | success (body : String)
deriving DecidableEq

/-- `"security check" in response.text.lower()` (line 289). -/
def bodyBlocked (body : String) : Bool :=
  containsSub (chars "security check") (pylower body.data)

/-- `"captcha" in response.text.lower()` (line 292). -/
def bodyCaptcha (body : String) : Bool :=
  containsSub (chars "captcha") (pylower body.data)

/-- The response-classification sequence of make_request (lines 285-298),
as a pure function of the status code and the body text. The code never reads
any response header; there is no Retry-After handling anywhere. -/
def classify (status : Nat) (body : String) : Outcome :=
  if status = 999 then Outcome.rateLimited
  else if bodyBlocked body then Outcome.blocked
  else if bodyCaptcha body then Outcome.captchaRequired
  else if status ≠ 200 then Outcome.httpError status
  else Outcome.success body

example : classify 999 "all fine" = Outcome.rateLimited := by decide
example : classify 200 "Please complete a CAPTCHA" = Outcome.captchaRequired := by decide
example : classify 200 "Security Check ahead" = Outcome.blocked := by decide
example : classify 404 "" = Outcome.httpError 404 := by decide
example : classify 200 "hello" = Outcome.success "hello" := by decide

-- --- THE RETRY LOOP OF make_request (lines 267-315) ---

/-- What one attempt's `requests.get` call produces: a proxy/connection-level
exception, some other exception (timeout etc.), or an HTTP response. -/
inductive AttemptResult where
  | transportError
  | otherError
  | response (status : Nat) (body : String)
deriving DecidableEq

/-- Lower bound of `time.sleep(random.uniform(30, 60))` in the handler for
RateLimitException / BlockedException / CaptchaException (line 306). The code
uses the same constant bounds at every attempt. -/
def blocked_backoff_lo (_attempt : Nat) : Nat := 30

/-- Upper bound of `time.sleep(random.uniform(30, 60))` (line 306); constant
across attempts, like the lower bound. -/
def blocked_backoff_hi (_attempt : Nat) : Nat := 60

/-- A concrete sleep duration the blocked-handler backoff can draw at the given
attempt: any value between the bounds of `random.uniform(30, 60)`. -/
def backoff_possible (attempt d : Nat) : Prop :=
  blocked_backoff_lo attempt ≤ d ∧ d ≤ blocked_backoff_hi attempt

/-- Observable side effects of the make_request loop, in order. `solverCall`
would mark an invocation of `CaptchaSolver.solve_recaptcha`; the constructor
exists so absence of such a call is expressible. -/
inductive Ev where
  | pacingSleep
  | httpRequest
  | markBad
  | blockedSleep (lo hi : Nat)
  | solverCall
deriving DecidableEq

/-- How one make_request call ends. The code wraps generic per-attempt errors
into `LinkedInScraperError(f"Request failed after 3 attempts: ...")`; the model
keeps the discriminating data of the wrapped error instead of the message. -/
inductive FetchResult where
  | success (body : String)
  | errRateLimited
  | errBlocked
  | errCaptcha
  | errHttpStatus (status : Nat)
  | errOther
  | errMaxRetries
deriving DecidableEq

/-- The `for attempt in range(MAX_RETRIES)` loop of make_request
(lines 267-315). `env attempt` is what the network returns on that attempt; the
second argument counts the remaining iterations (`rem = 0` inside the `rem + 1`
branch means `attempt == MAX_RETRIES - 1`, the loop's last iteration, where the
rate-limit/blocked/captcha and generic handlers re-raise). Proxy and cookie
acquisition are modelled as succeeding. Per attempt the code sleeps a pacing
delay, issues the GET, then: on ProxyError/ConnectionError marks the proxy bad
and continues (never re-raising); on status 999 marks the proxy bad and raises
RateLimitException; on a "security check" body raises BlockedException; on a
"captcha" body raises CaptchaException — all three handled by sleeping
`random.uniform(30, 60)` and re-raising only on the last attempt; on any other
non-200 status raises a generic error, re-raised only on the last attempt;
on 200 without markers it returns the body. `CaptchaSolver.solve_recaptcha` is
never invoked anywhere in make_request. -/
def make_request_go (env : Nat → AttemptResult) : Nat → Nat → FetchResult × List Ev
  | _attempt, 0 => (FetchResult.errMaxRetries, [])
  | attempt, rem + 1 =>
    match env attempt with
    | AttemptResult.transportError =>
      let rest := make_request_go env (attempt + 1) rem
      (rest.1, Ev.pacingSleep :: Ev.httpRequest :: Ev.markBad :: rest.2)
    | AttemptResult.otherError =>
      if rem = 0 then (FetchResult.errOther, [Ev.pacingSleep, Ev.httpRequest])
      else
        let rest := make_request_go env (attempt + 1) rem
        (rest.1, Ev.pacingSleep :: Ev.httpRequest :: rest.2)
    | AttemptResult.response status body =>
      match classify status body with
      | Outcome.success b => (FetchResult.success b, [Ev.pacingSleep, Ev.httpRequest])
      | Outcome.rateLimited =>
        if rem = 0 then
          (FetchResult.errRateLimited,
            [Ev.pacingSleep, Ev.httpRequest, Ev.markBad,
              Ev.blockedSleep (blocked_backoff_lo attempt) (blocked_backoff_hi attempt)])
        else
          let rest := make_request_go env (attempt + 1) rem
          (rest.1, Ev.pacingSleep :: Ev.httpRequest :: Ev.markBad ::
            Ev.blockedSleep (blocked_backoff_lo attempt) (blocked_backoff_hi attempt) :: rest.2)
      | Outcome.blocked =>
        if rem = 0 then
          (FetchResult.errBlocked,
            [Ev.pacingSleep, Ev.httpRequest,
              Ev.blockedSleep (blocked_backoff_lo attempt) (blocked_backoff_hi attempt)])
        else
          let rest := make_request_go env (attempt + 1) rem
          (rest.1, Ev.pacingSleep :: Ev.httpRequest ::
            Ev.blockedSleep (blocked_backoff_lo attempt) (blocked_backoff_hi attempt) :: rest.2)
      | Outcome.captchaRequired =>
        if rem = 0 then
          (FetchResult.errCaptcha,
            [Ev.pacingSleep, Ev.httpRequest,
              Ev.blockedSleep (blocked_backoff_lo attempt) (blocked_backoff_hi attempt)])
        else
          let rest := make_request_go env (attempt + 1) rem
          (rest.1, Ev.pacingSleep :: Ev.httpRequest ::
            Ev.blockedSleep (blocked_backoff_lo attempt) (blocked_backoff_hi attempt) :: rest.2)
      | Outcome.httpError s =>
        if rem = 0 then (FetchResult.errHttpStatus s, [Ev.pacingSleep, Ev.httpRequest])
        else
          let rest := make_request_go env (attempt + 1) rem
          (rest.1, Ev.pacingSleep :: Ev.httpRequest :: rest.2)

/-- One full make_request call: the loop starting at attempt 0 with
`MAX_RETRIES` iterations available. -/
def make_request (env : Nat → AttemptResult) : FetchResult × List Ev :=
  make_request_go env 0 MAX_RETRIES

example :
    make_request (fun _ => AttemptResult.response 200 "<html>profile</html>") =
      (FetchResult.success "<html>profile</html>", [Ev.pacingSleep, Ev.httpRequest]) := by
  decide

-- --- PROXY MANAGEMENT (ProxyManager, lines 109-131) ---

/-- The state of `ProxyManager`: the configured endpoint list and the
`blacklisted` set (as a duplicate-free list). -/
structure ProxyManager where
  proxies : List String
  blacklisted : List String
deriving DecidableEq

/-- `available = [p for p in self.proxies if p not in self.blacklisted]`
(line 118). -/
def availableProxies (pm : ProxyManager) : List String :=
  pm.proxies.filter (fun p => decide (p ∉ pm.blacklisted))

/-- `get_proxy` (lines 116-126): raises "No available proxies" (modelled as
`none`) when every proxy is blacklisted, else returns `random.choice(available)`
— modelled nondeterministically: `k` selects which available endpoint the
random draw picks. The code wraps the chosen endpoint into an http/https proxy
dict; the model returns the endpoint itself. -/
def get_proxy (pm : ProxyManager) (k : Nat) : Option String :=
  if (availableProxies pm).isEmpty then none
  else (availableProxies pm)[k % (availableProxies pm).length]?

/-- `mark_bad` (lines 128-131): `self.blacklisted.add(proxy)`. -/
def mark_bad (pm : ProxyManager) (p : String) : ProxyManager :=
  if p ∈ pm.blacklisted then pm else { pm with blacklisted := p :: pm.blacklisted }

-- --- COOKIE MANAGEMENT (CookieManager, lines 136-146) ---

/-- Session TTL used by `get_cookies`: 3600 seconds. -/
def SESSION_TTL : Nat := 3600

/-- The state of `CookieManager`: the jar (name/value pairs) and
`last_refresh` (a timestamp in seconds; 0 initially). -/
structure CookieManagerState where
  cookies : List (String × String)
  last_refresh : Nat
deriving DecidableEq

/-- `get_cookies` (lines 142-146): refresh when the jar is empty or
`time.time() - self.last_refresh > 3600`, else return the current jar.
`now` stands for `time.time()` and `freshJar` for the jar a successful
`refresh_cookies` run would harvest (the refresh also sets `last_refresh` to
the current time). Returns the jar handed to the caller, the state after the
call, and whether a refresh ran. -/
def get_cookies (s : CookieManagerState) (now : Nat)
    (freshJar : List (String × String)) :
    List (String × String) × CookieManagerState × Bool :=
  if s.cookies = [] ∨ now - s.last_refresh > SESSION_TTL then
    (freshJar, ⟨freshJar, now⟩, true)
  else
    (s.cookies, s, false)

-- --- THE BATCH LOOP OF main (lines 746-791) ---

/-- How the per-URL loop in `main` ends: the URL list is exhausted, the
consecutive-failure breaker `break`s out, or a per-URL exception propagates
because `--skip-errors` is off. -/
inductive BatchStop where
  | completed
  | breakerAborted
  | errorRaised
deriving DecidableEq

/-- The `for url in pbar` loop of `main` (lines 755-791), abstracted over
whether each URL in turn succeeds (`true`) or fails (`false`). The first
argument is `args.skip_errors`, the `Nat` is the running
`consecutive_failures` counter. On success the counter resets to 0; on failure
it increments, and the loop `break`s as soon as it reaches
`MAX_CONSECUTIVE_FAILURES` — this check precedes the `if not args.skip_errors:
raise`, so it applies for either flag value. Returns how many URLs were
attempted and why the loop stopped. -/
def batchLoop (skipErrors : Bool) : Nat → List Bool → Nat × BatchStop
  | _, [] => (0, BatchStop.completed)
  | consecutive, ok :: rest =>
    if ok then
      let r := batchLoop skipErrors 0 rest
      (r.1 + 1, r.2)
    else
      if consecutive + 1 ≥ MAX_CONSECUTIVE_FAILURES then (1, BatchStop.breakerAborted)
      else if skipErrors then
        let r := batchLoop skipErrors (consecutive + 1) rest
        (r.1 + 1, r.2)
      else (1, BatchStop.errorRaised)

/-- A batch run as `main` starts it: `consecutive_failures = 0`. -/
def runBatch (skipErrors : Bool) (outcomes : List Bool) : Nat × BatchStop :=
  batchLoop skipErrors 0 outcomes

example : runBatch true [false, false, true, false, false, false, false, false, true] =
    (8, BatchStop.breakerAborted) := by decide
example : runBatch false [true, false, true] = (2, BatchStop.errorRaised) := by decide

-- --- URL NORMALIZATION (clean_url, lines 345-373) ---

/-- The tracking-parameter denylist of `clean_url` (line 365). -/
def TRACKING_PARAMS : List Str :=
  [chars "trk", chars "ref", chars "original_referer"]

/-- Result of parsing a URL: scheme, network location, path, query. -/
structure ParsedUrl where
  scheme : Str
  netloc : Str
  path : Str
  query : Str
deriving DecidableEq

/-- Split a URL remainder into netloc (up to the first `/` or `?`) and the
rest. -/
def splitNetloc : Str → Str × Str
  | [] => ([], [])
  | c :: t =>
    if c = '/' ∨ c = '?' then ([], c :: t)
    else
      let r := splitNetloc t
      (c :: r.1, r.2)

/-- Split path-and-query at the first `?`. -/
def splitQuery : Str → Str × Str
  | [] => ([], [])
  | c :: t =>
    if c = '?' then ([], t)
    else
      let r := splitQuery t
      (c :: r.1, r.2)

/-- Modelled from the Python stdlib: `urllib.parse.urlparse`, restricted to
what `clean_url`'s inputs use — `scheme://netloc/path?query` references with no
fragment or params component (`clean_url` always prepends a scheme first). A
reference without `://` is parsed as a bare path-and-query, as urlparse does. -/
def urlparse (url : Str) : ParsedUrl :=
  match pysplit url (chars "://") with
  | s :: r :: rs =>
    let rest := List.intercalate (chars "://") (r :: rs)
    let nl := splitNetloc rest
    let pq := splitQuery nl.2
    ⟨s, nl.1, pq.1, pq.2⟩
  | _ =>
    let pq := splitQuery url
    ⟨[], [], pq.1, pq.2⟩

/-- Modelled from the Python stdlib: `urllib.parse.urljoin`, restricted to the
only call shape in `clean_url` — a base of the form `scheme://netloc` with an
empty path: an empty reference yields the base, otherwise the reference is
attached after a slash. -/
def urljoin (base rel : Str) : Str :=
  if rel.isEmpty then base
  else if leadsWith (chars "/") rel then base ++ rel
  else base ++ chars "/" ++ rel

/-- Ordered-dict insertion: `clean_params[key] = val` keeps the key's original
position on overwrite and appends a new key at the end. -/
def upsert : List (Str × Str) → Str → Str → List (Str × Str)
  | [], k, v => [(k, v)]
  | (k0, v0) :: t, k, v =>
    if k0 = k then (k0, v) :: t else (k0, v0) :: upsert t k v

/-- The parameter-filtering loop of `clean_url` (lines 361-366): for each
`param` of `query.split('&')` that contains `=`, split once at the first `=`
and keep the pair unless the lowercased key is denylisted. -/
def cleanParams : List Str → List (Str × Str) → List (Str × Str)
  | [], acc => acc
  | param :: rest, acc =>
    let kv := pysplit param (chars "=")
    if kv.length ≥ 2 then
      let key := kv.headD []
      let val := List.intercalate (chars "=") kv.tail
      if pylower key ∈ TRACKING_PARAMS then cleanParams rest acc
      else cleanParams rest (upsert acc key val)
    else cleanParams rest acc

/-- `clean_url` (lines 345-373) on character lists: strip, default the scheme
to https, parse, re-join the nonempty path segments, drop denylisted query
parameters, re-join the rest in original order, and rebuild the URL. -/
def clean_url_chars (url0 : Str) : Str :=
  let url1 := pystrip url0
  let url2 :=
    if leadsWith (chars "http://") url1 || leadsWith (chars "https://") url1 then url1
    else chars "https://" ++ url1
  let parsed := urlparse url2
  let path :=
    List.intercalate (chars "/")
      ((pysplit parsed.path (chars "/")).filter (fun part => !part.isEmpty))
  let params := cleanParams (pysplit parsed.query (chars "&")) []
  let query :=
    List.intercalate (chars "&") (params.map (fun kv => kv.1 ++ chars "=" ++ kv.2))
  urljoin (parsed.scheme ++ chars "://" ++ parsed.netloc)
    (if query.isEmpty then path else path ++ chars "?" ++ query)

/-- `clean_url` at the `String` interface. -/
def clean_url (url : String) : String := String.mk (clean_url_chars url.data)

example : clean_url "https://www.linkedin.com/in/a-b/?ref=share&x=1&trk=pub" =
    "https://www.linkedin.com/in/a-b?x=1" := by decide

-- --- INPUT HANDLING (get_urls_from_source, lines 376-417) ---

/-- The clipboard branch of `get_urls_from_source` (lines 385-394):
`[clean_url(line) for line in text.splitlines() if line.strip()][:MAX_URLS]`
(`splitlines` modelled as splitting at newline characters). -/
def get_urls_from_clipboard (text : Str) : List Str :=
  ((((pysplit text (chars "\n")).filter
      (fun line => !(pystrip line).isEmpty)).map clean_url_chars)).take MAX_URLS

/-- The CSV branch of `get_urls_from_source` (lines 400-411), given the
non-null values of the selected column:
`[clean_url(url) for url in df[csv_column].dropna().tolist()][:MAX_URLS]`. -/
def get_urls_from_csv (values : List Str) : List Str :=
  (values.map clean_url_chars).take MAX_URLS

/-- The text-file branch of `get_urls_from_source` (lines 414-417), given the
file's lines: `[clean_url(line) for line in f if line.strip()][:MAX_URLS]`. -/
def get_urls_from_textfile (lines : List Str) : List Str :=
  ((lines.filter (fun line => !(pystrip line).isEmpty)).map clean_url_chars).take MAX_URLS

-- --- PROFILE EXTRACTION (extract_profile_data, lines 446-494) ---

/-- The parts of a parsed profile page that `extract_profile_data` inspects:
the `content` attributes of the four meta tags it looks up, the `<title>` text,
and the texts of the first `h1.text-heading-xlarge` and
`div.text-body-medium` elements. A `none` field means `soup.find` returned
no element. -/
structure Page where
  ogTitleProp : Option Str := none
  ogTitleNameAttr : Option Str := none
  ogDescriptionProp : Option Str := none
  descriptionNameAttr : Option Str := none
  titleTag : Option Str := none
  h1HeadingXlarge : Option Str := none
  divBodyMedium : Option Str := none
deriving DecidableEq

/-- The record built by `extract_profile_data`:
`data = {'name': '', 'company': '', 'title': ''}` (line 454). -/
structure ProfileData where
  name : Str
  company : Str
  title : Str
deriving DecidableEq

/-- `soup.find('meta', property='og:title') or soup.find('meta',
{'name': 'og:title'})` (lines 457-458). -/
def metaOgTitle (p : Page) : Option Str :=
  p.ogTitleProp.orElse (fun _ => p.ogTitleNameAttr)

/-- `soup.find('meta', property='og:description') or soup.find('meta',
{'name': 'description'})` (lines 467-468). -/
def metaDescription (p : Page) : Option Str :=
  p.ogDescriptionProp.orElse (fun _ => p.descriptionNameAttr)

/-- `content.split('|')[0].split('-')` (line 461). -/
def metaTitleParts (content : Str) : List Str :=
  pysplit (List.headD (pysplit content (chars "|")) []) (chars "-")

/-- The name strategy 1 derives from the metadata title:
`title_parts[0].strip()` (line 462). -/
def metaName (content : Str) : Str :=
  pystrip ((metaTitleParts content).headD [])

/-- Strategy 1 (lines 457-464): OpenGraph title metadata. -/
def strategy1 (p : Page) (d : ProfileData) : ProfileData :=
  match metaOgTitle p with
  | none => d
  | some content =>
    let title_parts := metaTitleParts content
    let d1 := { d with name := metaName content }
    if title_parts.length > 1 then
      { d1 with title := pystrip (title_parts.getD 1 []) }
    else d1

/-- Strategy 2 (lines 467-470): description metadata; sets company from
`content.split(' at ')[-1].split('.')[0].strip()` when the content contains
`' at '`. -/
def strategy2 (p : Page) (d : ProfileData) : ProfileData :=
  match metaDescription p with
  | none => d
  | some content =>
    if containsSub (chars " at ") content then
      { d with company :=
          pystrip (List.headD
            (pysplit (List.getLastD (pysplit content (chars " at ")) []) (chars ".")) []) }
    else d

/-- Strategy 3 (lines 473-481): `<title>` fallback, used only when no name was
found yet; splits at `'|'`, then `' - '`, then `' at '`. -/
def strategy3 (p : Page) (d : ProfileData) : ProfileData :=
  if d.name = [] then
    match p.titleTag with
    | none => d
    | some t =>
      let title_text := pystrip (List.headD (pysplit t (chars "|")) [])
      let parts := pysplit title_text (chars " - ")
      let d1 := { d with name := pystrip (parts.headD []) }
      if parts.length > 1 then
        let job_company := pysplit (parts.getD 1 []) (chars " at ")
        let d2 := { d1 with title := pystrip (job_company.headD []) }
        if job_company.length > 1 then
          { d2 with company := pystrip (job_company.getD 1 []) }
        else d2
      else d1
  else d

/-- Strategy 4 (lines 484-492): layout markers — `h1.text-heading-xlarge` for
the name when still empty, `div.text-body-medium` for the title when still
empty. -/
def strategy4 (p : Page) (d : ProfileData) : ProfileData :=
  let d1 :=
    if d.name = [] then
      match p.h1HeadingXlarge with
      | some t => { d with name := pystrip t }
      | none => d
    else d
  if d1.title = [] then
    match p.divBodyMedium with
    | some t => { d1 with title := pystrip t }
    | none => d1
  else d1

/-- `extract_profile_data` (lines 446-494): the four strategies applied in
order to the initially empty record. -/
def extract_profile_data (p : Page) : ProfileData :=
  strategy4 p (strategy3 p (strategy2 p (strategy1 p ⟨[], [], []⟩)))

/-- The parse-and-validate step of `fetch_profile_data` (lines 432-441) on an
already-fetched page: a record with a nonempty name is returned, otherwise the
call reports the error string `"No parsable data found"` (the surrounding
`try` also converts request errors to error strings; the request itself is
modelled by `make_request` above). -/
def fetch_profile_data (p : Page) : Except String ProfileData :=
  let d := extract_profile_data p
  if d.name ≠ [] then Except.ok d else Except.error "No parsable data found"

example :
    extract_profile_data { titleTag := some (chars "Jane Doe - Engineer at Acme | LinkedIn") } =
      ⟨chars "Jane Doe", chars "Acme", chars "Engineer"⟩ := by decide
example : fetch_profile_data {} = Except.error "No parsable data found" := rfl

-- ===================== CLAIM THEOREMS =====================

/-- Claim C1, counterexample: a 429 response is not classified as rate
limited — with a captcha marker in the body it is classified CaptchaRequired
(and without one it would be a plain HttpError), so the claimed
"429 → RateLimited, winning over captcha markers" is false on the code. -/
theorem classify_429_not_rate_limited :
    classify 429 "Please complete a CAPTCHA" = Outcome.captchaRequired ∧
      Outcome.captchaRequired ≠ Outcome.rateLimited ∧
      classify 429 "" = Outcome.httpError 429 := by
  refine ⟨by decide, by decide, by decide⟩

/-- Claim C1 (amended): only the service-specific soft-block status 999 is
classified RateLimited (no retry_after is extracted — the code never reads a
response header), and this check runs first, winning even when the body also
contains a captcha or security-check marker; any other status, 429 included,
falls through to the 'security check' (Blocked) marker, then the 'captcha'
(CaptchaRequired) marker, then the non-200 HttpError check. -/
theorem classify_decision_order :
    ∀ (status : Nat) (body : String),
      (status = 999 → classify status body = Outcome.rateLimited) ∧
      (status ≠ 999 → bodyBlocked body = true → classify status body = Outcome.blocked) ∧
      (status ≠ 999 → bodyBlocked body = false → bodyCaptcha body = true →
        classify status body = Outcome.captchaRequired) ∧
      (status ≠ 999 → bodyBlocked body = false → bodyCaptcha body = false → status ≠ 200 →
        classify status body = Outcome.httpError status) := by
  intro status body
  refine ⟨fun h => by simp [classify, h], fun h hb => by simp [classify, h, hb],
    fun h hb hc => by simp [classify, h, hb, hc],
    fun h hb hc h200 => by simp [classify, h, hb, hc, h200]⟩

/-- Witness for `classify_decision_order` at concrete responses, including a
999 response whose body also carries a captcha marker. -/
theorem classify_decision_order_witness :
    classify 999 "Please complete a CAPTCHA" = Outcome.rateLimited ∧
      classify 429 "LinkedIn Security Check" = Outcome.blocked ∧
      classify 200 "Please complete a CAPTCHA" = Outcome.captchaRequired ∧
      classify 404 "not found" = Outcome.httpError 404 := by
  refine ⟨(classify_decision_order 999 "Please complete a CAPTCHA").1 rfl,
    (classify_decision_order 429 "LinkedIn Security Check").2.1 (by decide) (by decide),
    (classify_decision_order 200 "Please complete a CAPTCHA").2.2.1 (by decide) (by decide)
      (by decide),
    (classify_decision_order 404 "not found").2.2.2 (by decide) (by decide) (by decide)
      (by decide)⟩

/-- Claim C3, counterexample: the blocked-retry backoff is drawn from the same
`random.uniform(30, 60)` range at every attempt, so a later retry can sleep
strictly less than an earlier one (60 s at attempt 0, then 30 s at attempt 1);
the backoff is neither strictly increasing nor even monotonically
non-decreasing in the attempt index. -/
theorem backoff_can_decrease :
    backoff_possible 0 60 ∧ backoff_possible 1 30 ∧ ¬ (60 ≤ 30) := by
  refine ⟨⟨by decide, by decide⟩, ⟨by decide, by decide⟩, by decide⟩

/-- Claim C3 (amended): the backoff delay does not scale with the attempt
index at all — every blocked/rate-limited/captcha retry sleeps a value drawn
from the fixed interval [30, 60], identical at every attempt. -/
theorem backoff_bounds_attempt_independent :
    ∀ i j : Nat,
      blocked_backoff_lo i = blocked_backoff_lo j ∧
        blocked_backoff_hi i = blocked_backoff_hi j ∧
        blocked_backoff_lo i = 30 ∧ blocked_backoff_hi i = 60 := by
  intro i j
  exact ⟨rfl, rfl, rfl, rfl⟩

/-- Claim C9: normalizing `linkedin.com/in/jane-doe?trk=x` yields
`https://linkedin.com/in/jane-doe` (the denylisted `trk` parameter is
stripped), and extracting from a page whose only datum is the title tag
`"Jane Doe - Engineer at Acme | LinkedIn"` yields name "Jane Doe",
title "Engineer", company "Acme"; a second normalization shows surviving
parameters re-joined in original order. -/
theorem normalization_and_extraction_examples :
    clean_url "linkedin.com/in/jane-doe?trk=x" = "https://linkedin.com/in/jane-doe" ∧
      extract_profile_data
          { titleTag := some (chars "Jane Doe - Engineer at Acme | LinkedIn") } =
        { name := chars "Jane Doe", company := chars "Acme", title := chars "Engineer" } ∧
      clean_url "linkedin.com/in/jane-doe?b=2&trk=x&a=1" =
        "https://linkedin.com/in/jane-doe?b=2&a=1" := by
  refine ⟨by decide, by decide, by decide⟩

/-- Claim C10: every input source is capped at `MAX_URLS = 500` entries — each
branch of `get_urls_from_source` returns the first 500 cleaned URLs and
silently drops the rest. -/
theorem input_url_cap :
    ∀ (text : Str) (lines values : List Str),
      (get_urls_from_clipboard text).length ≤ MAX_URLS ∧
        (get_urls_from_csv values).length ≤ MAX_URLS ∧
        (get_urls_from_textfile lines).length ≤ MAX_URLS ∧
        get_urls_from_csv values = (values.map clean_url_chars).take MAX_URLS ∧
        get_urls_from_textfile lines =
          ((lines.filter (fun line => !(pystrip line).isEmpty)).map clean_url_chars).take
            MAX_URLS := by
  intro text lines values
  refine ⟨?_, ?_, ?_, rfl, rfl⟩
  · simp [get_urls_from_clipboard]
  · simp [get_urls_from_csv]
  · simp [get_urls_from_textfile]

/-- Claim C2: the fetch loop never invokes `CaptchaSolver.solve_recaptcha` —
no execution of `make_request`, however its attempts turn out, ever emits a
solver call, and a fetch whose every response demands a captcha just sleeps
the blocked backoff and retries the plain request until the attempts are
exhausted. The solver class is defined and instantiated in the source but is
dead code. -/
theorem captcha_never_invokes_solver :
    (∀ (env : Nat → AttemptResult) (attempt rem : Nat),
        Ev.solverCall ∉ (make_request_go env attempt rem).2) ∧
      make_request (fun _ => AttemptResult.response 200 "Please complete a CAPTCHA") =
        (FetchResult.errCaptcha,
          [Ev.pacingSleep, Ev.httpRequest, Ev.blockedSleep 30 60,
            Ev.pacingSleep, Ev.httpRequest, Ev.blockedSleep 30 60,
            Ev.pacingSleep, Ev.httpRequest, Ev.blockedSleep 30 60]) := by
  constructor
  · intro env attempt rem
    induction rem generalizing attempt with
    | zero => simp [make_request_go]
    | succ n ih =>
      simp only [make_request_go]
      cases henv : env attempt with
      | transportError => simp [List.mem_cons, ih]
      | otherError =>
        by_cases hn : n = 0 <;> simp [hn, List.mem_cons, ih]
      | response status body =>
        cases hc : classify status body <;>
          by_cases hn : n = 0 <;> simp [hc, hn, List.mem_cons, ih]
  · decide

/-- Claim C4, counterexample: a fetch whose every response is a permanent
client error (HTTP 404) does not fail fast — it issues all
`MAX_RETRIES = 3` requests before surfacing the HTTP error, consuming every
remaining retry attempt. -/
theorem http404_retried_to_exhaustion :
    (make_request (fun _ => AttemptResult.response 404 "")).2.count Ev.httpRequest =
        MAX_RETRIES ∧
      (make_request (fun _ => AttemptResult.response 404 "")).1 =
        FetchResult.errHttpStatus 404 ∧
      MAX_RETRIES ≠ 1 := by
  refine ⟨by decide, by decide, by decide⟩

/-- Claim C4 (amended): make_request has no permanent-client-error fast path:
every non-200 status other than 999, 404 included (with no blocking marker in
the body), is wrapped in a generic error that the retry loop swallows until
the attempts run out, so a constant such response consumes all remaining
attempts — `rem` of them from any loop position, and `MAX_RETRIES` for a full
fetch call — before the HTTP error surfaces. -/
theorem http_error_consumes_all_attempts :
    ∀ (s : Nat) (body : String),
      s ≠ 999 → s ≠ 200 → bodyBlocked body = false → bodyCaptcha body = false →
      (∀ attempt rem : Nat, 1 ≤ rem →
          (make_request_go (fun _ => AttemptResult.response s body) attempt rem).1 =
              FetchResult.errHttpStatus s ∧
            (make_request_go (fun _ => AttemptResult.response s body) attempt rem).2.count
                Ev.httpRequest = rem) ∧
        (make_request (fun _ => AttemptResult.response s body)).1 =
            FetchResult.errHttpStatus s ∧
          (make_request (fun _ => AttemptResult.response s body)).2.count Ev.httpRequest =
            MAX_RETRIES := by
  intro s body h999 h200 hb hc
  have hcl : classify s body = Outcome.httpError s := by
    simp [classify, h999, h200, hb, hc]
  have G : ∀ rem attempt : Nat, 1 ≤ rem →
      (make_request_go (fun _ => AttemptResult.response s body) attempt rem).1 =
          FetchResult.errHttpStatus s ∧
        (make_request_go (fun _ => AttemptResult.response s body) attempt rem).2.count
            Ev.httpRequest = rem := by
    intro rem
    induction rem with
    | zero => intro attempt h; omega
    | succ n ih =>
      intro attempt _
      by_cases hn : n = 0
      · subst hn
        simp [make_request_go, hcl, List.count_cons]
      · have hrec := ih (attempt + 1) (by omega)
        simp [make_request_go, hcl, hn, List.count_cons, hrec.1, hrec.2]
  exact ⟨fun attempt rem h => G rem attempt h,
    (G MAX_RETRIES 0 (by decide)).1, (G MAX_RETRIES 0 (by decide)).2⟩

/-- Claim C5: `get_proxy` only ever hands out a configured, non-blacklisted
endpoint; every non-blacklisted endpoint is a possible draw; when every
endpoint is blacklisted it always fails ("No available proxies"); `mark_bad`
is idempotent; and the blacklist only grows. -/
theorem proxy_pool_contract :
    ∀ (pm : ProxyManager) (k : Nat) (p : String),
      (get_proxy pm k = some p → p ∈ pm.proxies ∧ p ∉ pm.blacklisted) ∧
      ((∀ q ∈ pm.proxies, q ∈ pm.blacklisted) → get_proxy pm k = none) ∧
      (p ∈ availableProxies pm → ∃ j, get_proxy pm j = some p) ∧
      mark_bad (mark_bad pm p) p = mark_bad pm p ∧
      (∀ q ∈ pm.blacklisted, q ∈ (mark_bad pm p).blacklisted) := by
  intro pm k p
  refine ⟨?_, ?_, ?_, ?_, ?_⟩
  · intro h
    rw [get_proxy] at h
    split at h
    · exact absurd h (by simp)
    · have hmem : p ∈ availableProxies pm := by
        have := List.getElem?_eq_some_iff.mp h
        obtain ⟨hlt, hp⟩ := this
        exact hp ▸ List.getElem_mem hlt
      have := List.mem_filter.mp hmem
      exact ⟨this.1, by simpa using this.2⟩
  · intro hall
    have hav : availableProxies pm = [] := by
      rw [availableProxies, List.filter_eq_nil_iff]
      intro a ha
      simp [hall a ha]
    simp [get_proxy, hav]
  · intro hp
    obtain ⟨n, hn⟩ := List.mem_iff_getElem?.mp hp
    have hlt : n < (availableProxies pm).length :=
      (List.getElem?_eq_some_iff.mp hn).1
    refine ⟨n, ?_⟩
    rw [get_proxy]
    rw [if_neg (by simp [List.isEmpty_iff]; exact List.ne_nil_of_mem hp)]
    rwa [Nat.mod_eq_of_lt hlt]
  · by_cases h : p ∈ pm.blacklisted
    · simp [mark_bad, h]
    · simp [mark_bad, h]
  · intro q hq
    rw [mark_bad]
    split
    · exact hq
    · exact List.mem_cons_of_mem _ hq

/-- Witness for `proxy_pool_contract` on the source's own `PROXY_LIST` with
its second endpoint blacklisted, and on a pool with every endpoint
blacklisted. -/
theorem proxy_pool_contract_witness :
    ("123.123.123.123:8000" ∈ PROXY_LIST ∧
        "123.123.123.123:8000" ∉ ["111.222.111.222:8080"]) ∧
      get_proxy ⟨PROXY_LIST, PROXY_LIST⟩ 7 = none ∧
      (∃ j, get_proxy ⟨PROXY_LIST, ["111.222.111.222:8080"]⟩ j =
        some "123.123.123.123:8000") ∧
      (∀ q ∈ ["111.222.111.222:8080"],
        q ∈ (mark_bad ⟨PROXY_LIST, ["111.222.111.222:8080"]⟩ "123.123.123.123:8000").blacklisted) :=
  ⟨(proxy_pool_contract ⟨PROXY_LIST, ["111.222.111.222:8080"]⟩ 0 "123.123.123.123:8000").1
      (by decide),
    (proxy_pool_contract ⟨PROXY_LIST, PROXY_LIST⟩ 7 "x").2.1 (by decide),
    (proxy_pool_contract ⟨PROXY_LIST, ["111.222.111.222:8080"]⟩ 0
        "123.123.123.123:8000").2.2.1 (by decide),
    (proxy_pool_contract ⟨PROXY_LIST, ["111.222.111.222:8080"]⟩ 0
        "123.123.123.123:8000").2.2.2.2⟩

/-- Claim C6: while a nonempty session jar is within its one-hour TTL,
`get_cookies` returns the same jar on every call without refreshing, and once
the TTL has expired a single call performs exactly one refresh — after which
in-TTL calls again refresh nothing, so each expiry triggers exactly one
refresh under sequential use. -/
theorem cookie_ttl_contract :
    ∀ (s : CookieManagerState) (now now' : Nat)
      (freshJar freshJar' : List (String × String)),
      (s.cookies ≠ [] → now - s.last_refresh < SESSION_TTL →
        get_cookies s now freshJar = (s.cookies, s, false)) ∧
      (now - s.last_refresh > SESSION_TTL →
        get_cookies s now freshJar = (freshJar, ⟨freshJar, now⟩, true) ∧
          (freshJar ≠ [] → now' - now < SESSION_TTL →
            get_cookies ⟨freshJar, now⟩ now' freshJar' = (freshJar, ⟨freshJar, now⟩, false))) := by
  intro s now now' freshJar freshJar'
  constructor
  · intro hne httl
    rw [get_cookies, if_neg]
    push_neg
    exact ⟨hne, by omega⟩
  · intro hexp
    constructor
    · rw [get_cookies, if_pos (Or.inr hexp)]
    · intro hne httl
      rw [get_cookies, if_neg]
      push_neg
      exact ⟨hne, by simp; omega⟩

/-- Witness for `cookie_ttl_contract`: a one-cookie session created at time
1000 is returned unchanged at time 2000; at time 5000 (elapsed 4000 > 3600) a
refresh runs, and the refreshed session is then returned unchanged at time
5100. -/
theorem cookie_ttl_contract_witness :
    get_cookies ⟨[("li_at", "tok0")], 1000⟩ 2000 [("li_at", "tok1")] =
        ([("li_at", "tok0")], ⟨[("li_at", "tok0")], 1000⟩, false) ∧
      get_cookies ⟨[("li_at", "tok0")], 1000⟩ 5000 [("li_at", "tok1")] =
        ([("li_at", "tok1")], ⟨[("li_at", "tok1")], 5000⟩, true) ∧
      get_cookies ⟨[("li_at", "tok1")], 5000⟩ 5100 [("li_at", "tok2")] =
        ([("li_at", "tok1")], ⟨[("li_at", "tok1")], 5000⟩, false) :=
  ⟨(cookie_ttl_contract ⟨[("li_at", "tok0")], 1000⟩ 2000 5100 [("li_at", "tok1")]
        [("li_at", "tok2")]).1 (by decide) (by decide),
    ((cookie_ttl_contract ⟨[("li_at", "tok0")], 1000⟩ 5000 5100 [("li_at", "tok1")]
        [("li_at", "tok2")]).2 (by decide)).1,
    ((cookie_ttl_contract ⟨[("li_at", "tok0")], 1000⟩ 5000 5100 [("li_at", "tok1")]
        [("li_at", "tok2")]).2 (by decide)).2 (by decide) (by decide)⟩

/-- Strategy 1 writes the metadata-derived name whenever an og:title meta tag
is present. -/
theorem strategy1_name (p : Page) (d : ProfileData) (c : Str)
    (h : metaOgTitle p = some c) : (strategy1 p d).name = metaName c := by
  simp only [strategy1, h]
  split <;> rfl

/-- Without any og:title meta tag, strategy 1 leaves the record unchanged. -/
theorem strategy1_none (p : Page) (d : ProfileData)
    (h : metaOgTitle p = none) : strategy1 p d = d := by
  rw [strategy1, h]

/-- Strategy 2 only ever writes the company field. -/
theorem strategy2_name (p : Page) (d : ProfileData) :
    (strategy2 p d).name = d.name := by
  cases h : metaDescription p with
  | none => simp [strategy2, h]
  | some content =>
    simp only [strategy2, h]
    split <;> rfl

/-- Strategy 3 is skipped entirely once a name has been found. -/
theorem strategy3_skip (p : Page) (d : ProfileData) (h : d.name ≠ []) :
    strategy3 p d = d := by
  rw [strategy3, if_neg h]

/-- With no name yet and no title tag, strategy 3 changes nothing. -/
theorem strategy3_no_title (p : Page) (d : ProfileData) (h : d.name = [])
    (ht : p.titleTag = none) : strategy3 p d = d := by
  rw [strategy3, if_pos h, ht]

/-- Strategy 4 never overwrites an already-found name. -/
theorem strategy4_keeps_name (p : Page) (d : ProfileData) (h : d.name ≠ []) :
    (strategy4 p d).name = d.name := by
  rw [strategy4, if_neg h]
  split
  · cases p.divBodyMedium <;> rfl
  · rfl

/-- With no name yet, strategy 4 takes the name from the
`h1.text-heading-xlarge` layout marker. -/
theorem strategy4_h1_name (p : Page) (d : ProfileData) (t : Str)
    (h : d.name = []) (hh : p.h1HeadingXlarge = some t) :
    (strategy4 p d).name = pystrip t := by
  rw [strategy4, if_pos h, hh]
  split
  · cases p.divBodyMedium <;> rfl
  · rfl

/-- Claim C8: strategy precedence and the nameless-record rule. When the page
carries an og:title meta tag whose derived name is nonempty, that
metadata-derived name is the one extracted, whatever layout markers are also
present; when the page has no title metadata and no title tag but does have
the `h1.text-heading-xlarge` layout marker, the name comes from that marker;
and whenever every strategy leaves the name empty, `fetch_profile_data`
reports the fetch-level error "No parsable data found" instead of a
partially-populated record. -/
theorem extractor_precedence_contract :
    ∀ (p : Page) (c : Str),
      (p.ogTitleProp = some c → metaName c ≠ [] →
        (extract_profile_data p).name = metaName c) ∧
      (p.ogTitleProp = none → p.ogTitleNameAttr = none → p.titleTag = none →
        p.h1HeadingXlarge = some c →
        (extract_profile_data p).name = pystrip c) ∧
      ((extract_profile_data p).name = [] →
        fetch_profile_data p = Except.error "No parsable data found") := by
  intro p c
  refine ⟨?_, ?_, ?_⟩
  · intro hog hmn
    have hmt : metaOgTitle p = some c := by rw [metaOgTitle, hog]; rfl
    rw [extract_profile_data]
    have h1 : (strategy1 p ⟨[], [], []⟩).name = metaName c := strategy1_name p _ c hmt
    have h2 : (strategy2 p (strategy1 p ⟨[], [], []⟩)).name = metaName c := by
      rw [strategy2_name, h1]
    have h3 : strategy3 p (strategy2 p (strategy1 p ⟨[], [], []⟩)) =
        strategy2 p (strategy1 p ⟨[], [], []⟩) :=
      strategy3_skip p _ (by rw [h2]; exact hmn)
    rw [h3, strategy4_keeps_name p _ (by rw [h2]; exact hmn), h2]
  · intro hog hogn ht hh
    have hmt : metaOgTitle p = none := by rw [metaOgTitle, hog, hogn]; rfl
    rw [extract_profile_data, strategy1_none p _ hmt]
    have h2 : (strategy2 p ⟨[], [], []⟩).name = [] := strategy2_name p _
    rw [strategy3_no_title p _ h2 ht]
    exact strategy4_h1_name p _ _ h2 hh
  · intro hempty
    rw [fetch_profile_data, if_neg]
    simpa using hempty

/-- Witness for `extractor_precedence_contract`: a page carrying both an
og:title meta tag and a conflicting layout marker extracts the metadata name;
a page with only the layout marker extracts the marker text; a page with
neither yields the no-parsable-data error. -/
theorem extractor_precedence_contract_witness :
    (extract_profile_data
        { ogTitleProp := some (chars "Jane Doe - Engineer at Acme | LinkedIn"),
          h1HeadingXlarge := some (chars "Somebody Else") }).name = chars "Jane Doe" ∧
      (extract_profile_data { h1HeadingXlarge := some (chars " Jane Roe ") }).name =
        chars "Jane Roe" ∧
      fetch_profile_data {} = Except.error "No parsable data found" :=
  ⟨(extractor_precedence_contract
        { ogTitleProp := some (chars "Jane Doe - Engineer at Acme | LinkedIn"),
          h1HeadingXlarge := some (chars "Somebody Else") }
        (chars "Jane Doe - Engineer at Acme | LinkedIn")).1 rfl (by decide),
    (extractor_precedence_contract { h1HeadingXlarge := some (chars " Jane Roe ") }
        (chars " Jane Roe ")).2.1 rfl rfl rfl rfl,
    (extractor_precedence_contract {} []).2.2 (by decide)⟩

/-- Claim C7: in the batch loop, a success resets the consecutive-failure
counter to zero; a failure that brings the counter to
`MAX_CONSECUTIVE_FAILURES = 5` stops the batch right there — regardless of the
`--skip-errors` flag, whose check comes after the breaker's — attempting no
further URL; below the threshold with skip-errors the loop continues with the
incremented counter; and a fresh skip-errors batch whose first five URLs all
fail stops after exactly those five attempts. -/
theorem circuit_breaker_contract :
    ∀ (skip : Bool) (c : Nat) (rest : List Bool),
      (batchLoop skip c (true :: rest) =
        ((batchLoop skip 0 rest).1 + 1, (batchLoop skip 0 rest).2)) ∧
      (c + 1 ≥ MAX_CONSECUTIVE_FAILURES →
        batchLoop skip c (false :: rest) = (1, BatchStop.breakerAborted)) ∧
      (c + 1 < MAX_CONSECUTIVE_FAILURES →
        batchLoop true c (false :: rest) =
          ((batchLoop true (c + 1) rest).1 + 1, (batchLoop true (c + 1) rest).2)) ∧
      (c + 1 < MAX_CONSECUTIVE_FAILURES →
        batchLoop false c (false :: rest) = (1, BatchStop.errorRaised)) ∧
      runBatch true (List.replicate MAX_CONSECUTIVE_FAILURES false ++ rest) =
        (MAX_CONSECUTIVE_FAILURES, BatchStop.breakerAborted) := by
  intro skip c rest
  refine ⟨by simp [batchLoop], fun h => by simp [batchLoop, if_pos h], ?_, ?_, ?_⟩
  · intro h
    simp [batchLoop]
    omega
  · intro h
    simp [batchLoop]
    omega
  · show batchLoop true 0 (false :: false :: false :: false :: false :: rest) = _
    simp [batchLoop, MAX_CONSECUTIVE_FAILURES]

/-- Witness for `circuit_breaker_contract`: the breaker conjuncts applied at a
counter of 4 (so the next failure is the 5th) and below the threshold. -/
theorem circuit_breaker_contract_witness :
    batchLoop true 4 [false, true, true] = (1, BatchStop.breakerAborted) ∧
      batchLoop false 4 [false, true, true] = (1, BatchStop.breakerAborted) ∧
      batchLoop true 0 [false, true] =
        ((batchLoop true 1 [true]).1 + 1, (batchLoop true 1 [true]).2) ∧
      batchLoop false 0 [false, true] = (1, BatchStop.errorRaised) :=
  ⟨(circuit_breaker_contract true 4 [true, true]).2.1 (by decide),
    (circuit_breaker_contract false 4 [true, true]).2.1 (by decide),
    (circuit_breaker_contract true 0 [true]).2.2.1 (by decide),
    (circuit_breaker_contract false 0 [true]).2.2.2.1 (by decide)⟩

/-- Witness for `http_error_consumes_all_attempts` at a constant-404 fetch. -/
theorem http_error_consumes_all_attempts_witness :
    (make_request (fun _ => AttemptResult.response 410 "gone")).1 =
        FetchResult.errHttpStatus 410 ∧
      (make_request (fun _ => AttemptResult.response 410 "gone")).2.count Ev.httpRequest =
        MAX_RETRIES :=
  ⟨(http_error_consumes_all_attempts 410 "gone" (by decide) (by decide) (by decide)
      (by decide)).2.1,
    (http_error_consumes_all_attempts 410 "gone" (by decide) (by decide) (by decide)
      (by decide)).2.2⟩
